import Mathlib

/-!
Shallow embedding of the feedback backend (`src/backend/app`), covering the
sentiment classifier, the summarizer, the feedback store query layer and the
API-level orchestration, together with theorems settling the specification
claims about them.

External effects are made explicit: the outcome of the single call to the
external generative model is passed in as an oracle value, and the persistent
store is a plain list of records threaded through the operations.

Python string primitives (`str.strip`, `str.lower`, `str.split`, `in`) are
embedded as structurally recursive functions over the character list of a
`String`, so that every definition evaluates inside the kernel.
-/

namespace FeedbackApp

/-- Modelled from the spec: `src/backend/app/core/constants.py` is absent from
the source tree; the spec fixes the sentiment label set as
`{positive, negative, neutral}`. -/
def VALID_SENTIMENTS : List String := ["positive", "negative", "neutral"]

/-- Modelled from the spec: `constants.py` is absent; the spec (and the column
comment in `models.py`) give the enumerated source channels. -/
def VALID_SOURCES : List String := ["support_ticket", "survey", "app_store"]

/-- Modelled from the spec: `constants.py` is absent; the spec gives the
summarization batch cap as a configured constant, e.g. 50. -/
def MAX_FEEDBACK_FOR_SUMMARY : Nat := 50

/-- Outcome of one call to the external generative model: `.error e` when the
call raises with message `e`, `.ok r` when it returns response text `r`. -/
abbrev ModelOutcome := Except String String

/-- Remove leading and trailing whitespace from a character list. -/
def trimChars (l : List Char) : List Char :=
  ((l.dropWhile Char.isWhitespace).reverse.dropWhile Char.isWhitespace).reverse

/-- Python `str.strip()`. -/
def pyStrip (s : String) : String := ⟨trimChars s.data⟩

/-- Python `str.lower()` (ASCII case folding, as used by the source). -/
def pyLower (s : String) : String := ⟨s.data.map Char.toLower⟩

/-- Helper for `pySplitWS`: accumulate the current word (reversed) while
scanning the characters. -/
def wordsAux : List Char → List Char → List (List Char)
  | [], acc => if acc.isEmpty then [] else [acc.reverse]
  | c :: rest, acc =>
    if c.isWhitespace then
      if acc.isEmpty then wordsAux rest [] else acc.reverse :: wordsAux rest []
    else wordsAux rest (c :: acc)

/-- Python `str.split()` with no separator: split on whitespace runs and drop
empty fragments (used by `AIService.analyze_sentiment` on the response). -/
def pySplitWS (s : String) : List String := (wordsAux s.data []).map (fun w => ⟨w⟩)

/-- Substring occurrence on character lists. -/
def substrOf : List Char → List Char → Bool
  | needle, [] => needle.isEmpty
  | needle, c :: rest => needle.isPrefixOf (c :: rest) || substrOf needle rest

/-- Python `needle in hay` on strings: substring containment. -/
def strContains (hay needle : String) : Bool := substrOf needle.data hay.data

/-- Negative keyword list of `AIService._fallback_sentiment`. -/
def negative_keywords : List String :=
  ["bad", "terrible", "awful", "hate", "disappointed", "frustrated",
   "broken", "bug", "error", "crash", "slow", "worst"]

/-- Positive keyword list of `AIService._fallback_sentiment`. -/
def positive_keywords : List String :=
  ["love", "great", "excellent", "amazing", "perfect", "wonderful",
   "fantastic", "best", "happy", "satisfied", "good"]

/-- Embedding of `AIService._fallback_sentiment`: lower-case the full text, count how many
keywords of each fixed list occur as substrings, and vote. -/
def fallback_sentiment (text : String) : String :=
  let text_lower := pyLower text
  let negative_count := (negative_keywords.filter (fun k => strContains text_lower k)).length
  let positive_count := (positive_keywords.filter (fun k => strContains text_lower k)).length
  if positive_count < negative_count then "negative"
  else if negative_count < positive_count then "positive"
  else "neutral"

/-- Number of keywords from `kws` occurring (as substrings) in the lower-cased
text, i.e. the vote count computed by `AIService._fallback_sentiment`. -/
def keywordVotes (kws : List String) (text : String) : Nat :=
  (kws.filter (fun k => strContains (pyLower text) k)).length

/-- A model response is malformed for the classifier when its first
whitespace-delimited token (after strip + lower) is absent or is not a valid
sentiment label; in the source both cases reach `_fallback_sentiment` (the
missing-token case via the caught `IndexError`). -/
def malformedResponse (r : String) : Bool :=
  match pySplitWS (pyLower (pyStrip r)) with
  | [] => true
  | w :: _ => !(VALID_SENTIMENTS.contains w)

/-- Embedding of `AIService.analyze_sentiment`, with the external call's outcome passed as
an oracle.  Returns the label together with whether the external model was
invoked.  An exception from the external call, and the `IndexError` raised
when the response strips to no token, are both caught by the source's
`except Exception` and routed to the fallback. -/
def analyze_sentiment (outcome : ModelOutcome) (text : String) : String × Bool :=
  if pyStrip text = "" then ("neutral", false)
  else
    match outcome with
    | .error _ => (fallback_sentiment text, true)
    | .ok r =>
      match pySplitWS (pyLower (pyStrip r)) with
      | [] => (fallback_sentiment text, true)
      | sentiment :: _ =>
        if VALID_SENTIMENTS.contains sentiment then (sentiment, true)
        else (fallback_sentiment text, true)

theorem fallback_sentiment_mem (text : String) :
    fallback_sentiment text ∈ VALID_SENTIMENTS := by
  unfold fallback_sentiment
  dsimp only
  split
  · simp [VALID_SENTIMENTS]
  · split <;> simp [VALID_SENTIMENTS]

/-- C1: for every input text and every outcome of the external call (failure
or arbitrary response text), `analyze_sentiment` returns one of the three
valid labels; and when the text is empty or all-whitespace it returns
`neutral` without invoking the external model. -/
theorem classify_total_never_raises (outcome : ModelOutcome) (text : String) :
    (analyze_sentiment outcome text).1 ∈ VALID_SENTIMENTS ∧
    (pyStrip text = "" → analyze_sentiment outcome text = ("neutral", false)) := by
  constructor
  · unfold analyze_sentiment
    split
    · simp [VALID_SENTIMENTS]
    · cases outcome with
      | error e => exact fallback_sentiment_mem text
      | ok r =>
        dsimp only
        cases pySplitWS (pyLower (pyStrip r)) with
        | nil => exact fallback_sentiment_mem text
        | cons w rest =>
          dsimp only
          split
          · next h => simpa using List.mem_of_elem_eq_true h
          · exact fallback_sentiment_mem text
  · intro h
    simp [analyze_sentiment, h]

/-- Witness for C1 at concrete inputs. -/
theorem classify_total_never_raises_witness :
    (analyze_sentiment (.error "boom") "   ").1 ∈ VALID_SENTIMENTS ∧
    analyze_sentiment (.error "boom") "   " = ("neutral", false) :=
  ⟨(classify_total_never_raises (.error "boom") "   ").1,
   (classify_total_never_raises (.error "boom") "   ").2 (by decide)⟩

/-- C2: on every non-empty text, an external-call failure or a malformed
response routes the classifier to `_fallback_sentiment`; the fallback returns
`negative` exactly when the negative keyword vote strictly exceeds the
positive one, `positive` exactly when the reverse holds, `neutral` otherwise;
and on the fixed example text with a forced external failure the result is
`negative`. -/
theorem fallback_keyword_vote (text r e : String) :
    (pyStrip text ≠ "" →
      (analyze_sentiment (.error e) text).1 = fallback_sentiment text) ∧
    (pyStrip text ≠ "" → malformedResponse r = true →
      (analyze_sentiment (.ok r) text).1 = fallback_sentiment text) ∧
    (fallback_sentiment text = "negative" ↔
      keywordVotes positive_keywords text < keywordVotes negative_keywords text) ∧
    (fallback_sentiment text = "positive" ↔
      keywordVotes negative_keywords text < keywordVotes positive_keywords text) ∧
    (fallback_sentiment text = "neutral" ↔
      keywordVotes negative_keywords text = keywordVotes positive_keywords text) ∧
    analyze_sentiment (.error "forced failure")
      "This is terrible, broken, and the worst experience, bad bad bad" =
      ("negative", true) := by
  refine ⟨?_, ?_, ?_, ?_, ?_, ?_⟩
  · intro h
    simp [analyze_sentiment, h]
  · intro h hm
    unfold analyze_sentiment
    rw [if_neg h]
    dsimp only
    unfold malformedResponse at hm
    cases hsp : pySplitWS (pyLower (pyStrip r)) with
    | nil => rfl
    | cons w rest =>
      rw [hsp] at hm
      simp only [Bool.not_eq_true'] at hm
      dsimp only
      rw [if_neg (by simpa using hm)]
  · unfold fallback_sentiment keywordVotes
    dsimp only
    split
    · next h => simpa using h
    · next h => split <;> simp_all
  · unfold fallback_sentiment keywordVotes
    dsimp only
    split
    · next h =>
      constructor
      · intro hc
        exact absurd hc (by decide)
      · omega
    · next h =>
      split
      · next h2 => simpa using h2
      · next h2 =>
        constructor
        · intro hc
          exact absurd hc (by decide)
        · omega
  · unfold fallback_sentiment keywordVotes
    dsimp only
    split
    · next h =>
      constructor
      · intro hc
        exact absurd hc (by decide)
      · omega
    · next h =>
      split
      · next h2 =>
        constructor
        · intro hc
          exact absurd hc (by decide)
        · omega
      · next h2 =>
        constructor
        · intro _
          omega
        · intro _
          rfl
  · decide

/-- Witness for C2 at concrete inputs. -/
theorem fallback_keyword_vote_witness :
    (analyze_sentiment (.error "boom") "bad slow day").1 =
      fallback_sentiment "bad slow day" ∧
    (analyze_sentiment (.ok "gibberish") "bad slow day").1 =
      fallback_sentiment "bad slow day" :=
  ⟨(fallback_keyword_vote "bad slow day" "gibberish" "boom").1 (by decide),
   (fallback_keyword_vote "bad slow day" "gibberish" "boom").2.1 (by decide) (by decide)⟩

/-! ## Summarizer (`AIService.summarize_feedback`) -/

/-- The fixed sentinel message for an empty input list. -/
def NO_FEEDBACK_MESSAGE : String := "No feedback available to summarize."

/-- Error raised by `AIService.summarize_feedback` (`AIServiceError` in the
source), carrying its message, which wraps the underlying cause. -/
structure AIServiceError where
  message : String
deriving DecidableEq

/-- Embedding of `AIService.summarize_feedback`, with the external call's outcome passed as
an oracle.  Returns the result together with the list of texts actually sent
to the external model (empty when the model was not invoked).  On failure of
the external call the source re-raises `AIServiceError` wrapping the cause;
on success it returns the stripped response text. -/
def summarize_feedback (outcome : ModelOutcome) (feedback_texts : List String) :
    Except AIServiceError String × List String :=
  if feedback_texts.isEmpty then (.ok NO_FEEDBACK_MESSAGE, [])
  else
    let texts_to_summarize := feedback_texts.take MAX_FEEDBACK_FOR_SUMMARY
    match outcome with
    | .error e => (.error ⟨"Failed to generate summary: " ++ e⟩, texts_to_summarize)
    | .ok r => (.ok (pyStrip r), texts_to_summarize)

/-- C6: the summarizer raises exactly when the external call fails on a
non-empty input: the empty list yields the fixed sentinel without invoking
the external model and without error, and on a non-empty list an external
failure is propagated as an `AIServiceError` carrying the underlying cause,
while an external success never yields an error. -/
theorem summarize_error_policy (outcome : ModelOutcome) (texts : List String) (e r : String) :
    summarize_feedback outcome [] = (.ok NO_FEEDBACK_MESSAGE, []) ∧
    (texts ≠ [] → (summarize_feedback (.error e) texts).1 =
      .error ⟨"Failed to generate summary: " ++ e⟩) ∧
    (texts ≠ [] → (summarize_feedback (.ok r) texts).1 = .ok (pyStrip r)) := by
  refine ⟨rfl, ?_, ?_⟩
  · intro h
    simp [summarize_feedback, h]
  · intro h
    simp [summarize_feedback, h]

/-- Witness for C6 at concrete inputs. -/
theorem summarize_error_policy_witness :
    summarize_feedback (.error "api down") [] = (.ok NO_FEEDBACK_MESSAGE, []) ∧
    (summarize_feedback (.error "api down") ["slow app"]).1 =
      .error ⟨"Failed to generate summary: api down"⟩ :=
  ⟨(summarize_error_policy (.error "api down") ["slow app"] "api down" "fine").1,
   (summarize_error_policy (.error "api down") ["slow app"] "api down" "fine").2.1
     (by decide)⟩

/-! ## Feedback store and query layer (`models.Feedback`, `FeedbackService`) -/

/-- A persisted feedback record (`models.Feedback`).  `created_at` is an
abstract integer timestamp and `extra_data` the opaque metadata payload. -/
structure Feedback where
  id : Nat
  text : String
  source : String
  sentiment : Option String
  created_at : Int
  extra_data : Option String
deriving DecidableEq

/-- The optional filter arguments of `FeedbackService.get_feedback`, with the
date bounds already parsed to timestamps. -/
structure QueryFilters where
  search : Option String
  source : Option String
  sentiment : Option String
  start_date : Option Int
  end_date : Option Int
deriving DecidableEq

/-- The all-`None` filter object (every `if <arg>:` guard falsy). -/
def noFilters : QueryFilters := ⟨none, none, none, none, none⟩

/-- The five `query.filter(...)` applications of
`FeedbackService.get_feedback`, in source order.  A `None` argument — or an
empty string, which is also falsy for Python's `if search:` guards — leaves
the query unchanged.  `ilike "%s%"` is case-insensitive substring matching,
and a SQL `NULL` sentiment never equals a filter constant. -/
def applyFilters (q : QueryFilters) (db : List Feedback) : List Feedback :=
  let db1 := match q.search with
    | some s => if s = "" then db
                else db.filter (fun f => strContains (pyLower f.text) (pyLower s))
    | none => db
  let db2 := match q.source with
    | some s => if s = "" then db1 else db1.filter (fun f => f.source == s)
    | none => db1
  let db3 := match q.sentiment with
    | some s => if s = "" then db2 else db2.filter (fun f => f.sentiment == some s)
    | none => db2
  let db4 := match q.start_date with
    | some d => db3.filter (fun f => decide (d ≤ f.created_at))
    | none => db3
  match q.end_date with
  | some d => db4.filter (fun f => decide (f.created_at ≤ d))
  | none => db4

/-- The text filter as a predicate on one record. -/
def searchOk (q : QueryFilters) (f : Feedback) : Bool :=
  match q.search with
  | some s => if s = "" then true else strContains (pyLower f.text) (pyLower s)
  | none => true

/-- The source filter as a predicate on one record. -/
def sourceOk (q : QueryFilters) (f : Feedback) : Bool :=
  match q.source with
  | some s => if s = "" then true else f.source == s
  | none => true

/-- The sentiment filter as a predicate on one record. -/
def sentimentOk (q : QueryFilters) (f : Feedback) : Bool :=
  match q.sentiment with
  | some s => if s = "" then true else f.sentiment == some s
  | none => true

/-- The inclusive lower `created_at` bound as a predicate on one record. -/
def startOk (q : QueryFilters) (f : Feedback) : Bool :=
  match q.start_date with
  | some d => decide (d ≤ f.created_at)
  | none => true

/-- The inclusive upper `created_at` bound as a predicate on one record. -/
def endOk (q : QueryFilters) (f : Feedback) : Bool :=
  match q.end_date with
  | some d => decide (f.created_at ≤ d)
  | none => true

/-- Conjunction of all five filter predicates. -/
def matchesAll (q : QueryFilters) (f : Feedback) : Bool :=
  endOk q f && (startOk q f && (sentimentOk q f && (sourceOk q f && searchOk q f)))

/-- Chaining the five conditional `filter` clauses equals one filter by the
conjunction of the supplied predicates. -/
theorem applyFilters_eq_filter (q : QueryFilters) (db : List Feedback) :
    applyFilters q db = db.filter (fun f => matchesAll q f) := by
  rcases q with ⟨os, osrc, osent, osd, oed⟩
  cases os <;> cases osrc <;> cases osent <;> cases osd <;> cases oed <;>
    simp only [applyFilters, matchesAll, searchOk, sourceOk, sentimentOk, startOk, endOk,
      List.filter_filter, Bool.true_and, Bool.and_true] <;>
    (try split_ifs) <;>
    simp_all [List.filter_filter, Bool.and_assoc]

/-- Ordering used by `get_feedback`: `created_at` descending. -/
def byRecent (a b : Feedback) : Prop := b.created_at ≤ a.created_at

instance : DecidableRel byRecent :=
  fun a b => inferInstanceAs (Decidable (b.created_at ≤ a.created_at))

instance : IsTotal Feedback byRecent :=
  ⟨fun a b => (Int.le_total b.created_at a.created_at).symm.symm⟩

instance : IsTrans Feedback byRecent :=
  ⟨fun _ _ _ hab hbc => le_trans hbc hab⟩

/-- Embedding of `FeedbackService.get_feedback`: filter, count the matches, order by
`created_at` descending, then apply offset and limit. -/
def get_feedback (db : List Feedback) (skip limit : Nat) (q : QueryFilters) :
    List Feedback × Nat :=
  let matched := applyFilters q db
  let total := matched.length
  let ordered := List.insertionSort byRecent matched
  ((ordered.drop skip).take limit, total)

/-- Embedding of `FeedbackService.get_feedback_by_ids`: the empty id list short-circuits to
the empty result; otherwise the records whose id is in the list. -/
def get_feedback_by_ids (db : List Feedback) (feedback_ids : List Nat) : List Feedback :=
  if feedback_ids.isEmpty then []
  else db.filter (fun f => feedback_ids.contains f.id)

/-- The list endpoint of `routes.get_feedback`: page/page_size are translated
to `skip = (page - 1) * page_size`, `limit = page_size`. -/
def get_feedback_route (db : List Feedback) (page page_size : Nat) (q : QueryFilters) :
    List Feedback × Nat :=
  get_feedback db ((page - 1) * page_size) page_size q

/-- C4: the query layer applies all supplied filters conjunctively, orders the
page by `created_at` descending, returns the pre-pagination count of matches
as the total, and page `p` of size `s` over `K` matches holds
`min(s, max(0, K - (p-1)*s))` items, the total being `K` on every page. -/
theorem query_filters_pagination (db : List Feedback) (q : QueryFilters)
    (page s : Nat) (hp : 1 ≤ page) :
    (get_feedback_route db page s q).2 =
      (db.filter (fun f => matchesAll q f)).length ∧
    (((get_feedback_route db page s q).1.length : Int) =
      min (s : Int)
        (max 0 (((db.filter (fun f => matchesAll q f)).length : Int) -
          ((page : Int) - 1) * (s : Int)))) ∧
    (∀ f ∈ (get_feedback_route db page s q).1,
      searchOk q f ∧ sourceOk q f ∧ sentimentOk q f ∧ startOk q f ∧ endOk q f) ∧
    List.Sorted byRecent (get_feedback_route db page s q).1 := by
  have hsorted := List.sorted_insertionSort byRecent (applyFilters q db)
  refine ⟨?_, ?_, ?_, ?_⟩
  · simp [get_feedback_route, get_feedback, applyFilters_eq_filter]
  · have hlen : (get_feedback_route db page s q).1.length =
        min s ((db.filter (fun f => matchesAll q f)).length - (page - 1) * s) := by
      simp [get_feedback_route, get_feedback, List.length_take, List.length_drop,
        applyFilters_eq_filter]
    have hcast : (((page - 1) * s : Nat) : Int) = ((page : Int) - 1) * (s : Int) := by
      rw [Nat.cast_mul, Nat.cast_sub hp, Nat.cast_one]
    rw [← hcast]
    omega
  · intro f hf
    have hmem : f ∈ List.insertionSort byRecent (applyFilters q db) := by
      have h1 : f ∈ (List.insertionSort byRecent (applyFilters q db)).drop
          ((page - 1) * s) := List.take_subset _ _ hf
      exact List.drop_subset _ _ h1
    rw [List.mem_insertionSort] at hmem
    rw [applyFilters_eq_filter] at hmem
    have := List.of_mem_filter hmem
    simp only [matchesAll, Bool.and_eq_true] at this
    exact ⟨this.2.2.2.2, this.2.2.2.1, this.2.2.1, this.2.1, this.1⟩
  · have h1 : List.Sorted byRecent
        ((List.insertionSort byRecent (applyFilters q db)).drop ((page - 1) * s)) :=
      hsorted.sublist (List.drop_sublist _ _)
    exact h1.sublist (List.take_sublist _ _)

/-- Witness for C4 at a concrete store, filter set and page. -/
theorem query_filters_pagination_witness :
    (get_feedback_route
        [⟨1, "Great app", "survey", some "positive", 100, none⟩,
         ⟨2, "Bad bug", "app_store", some "negative", 200, none⟩,
         ⟨3, "great support", "survey", some "positive", 300, none⟩]
        1 1 ⟨some "great", some "survey", none, none, none⟩).2 =
      (List.filter (fun f => matchesAll ⟨some "great", some "survey", none, none, none⟩ f)
        [⟨1, "Great app", "survey", some "positive", 100, none⟩,
         ⟨2, "Bad bug", "app_store", some "negative", 200, none⟩,
         ⟨3, "great support", "survey", some "positive", 300, none⟩]).length := by
  exact (query_filters_pagination
    [⟨1, "Great app", "survey", some "positive", 100, none⟩,
     ⟨2, "Bad bug", "app_store", some "negative", 200, none⟩,
     ⟨3, "great support", "survey", some "positive", 300, none⟩]
    ⟨some "great", some "survey", none, none, none⟩ 1 1 (by decide)).1

/-! ## Creation path (`FeedbackService.create_feedback`) -/

/-- The error taxonomy surfaced by the service/route layer: `ValueError` on
validation maps to `invalidArgument`, HTTP 404 to `notFound`, `AIServiceError`
to `aiUnavailable`, `DatabaseError` to `databaseError`. -/
inductive ApiError where
  | invalidArgument (message : String)
  | notFound (message : String)
  | aiUnavailable (message : String)
  | databaseError (message : String)
deriving DecidableEq

/-- Embedding of `FeedbackService.create_feedback`, with the classifier passed explicitly
(the source calls the singleton `ai_service.analyze_sentiment`, which is
total by C1).  `new_id` and `now` stand for the store-assigned surrogate id
and timestamp.  Returns the store after the call, the operation's result, and
the list of texts the classifier was invoked on, in order. -/
def create_feedback (classify : String → String) (db : List Feedback)
    (new_id : Nat) (now : Int) (text source : String) (meta : Option String) :
    List Feedback × Except ApiError Feedback × List String :=
  if source ∉ VALID_SOURCES then
    (db, .error (.invalidArgument ("Invalid source: " ++ source)), [])
  else if pyStrip text = "" then
    (db, .error (.invalidArgument "Feedback text cannot be empty"), [])
  else
    let sentiment0 := classify text
    let sentiment := if VALID_SENTIMENTS.contains sentiment0 then sentiment0 else "neutral"
    let feedback : Feedback := ⟨new_id, pyStrip text, source, some sentiment, now, meta⟩
    (db ++ [feedback], .ok feedback, [text])

/-- C3 counterexample: on the valid input `" x "` (source `survey`), the
classifier is invoked on the raw text `" x "`, not on the trimmed text
`"x"` — the source passes `text` to `analyze_sentiment` and only trims at
persistence time. -/
theorem create_classifier_arg_counterexample :
    (create_feedback (fun _ => "neutral") [] 1 0 " x " "survey" none).2.2 ≠
      [pyStrip " x "] ∧
    (create_feedback (fun _ => "neutral") [] 1 0 " x " "survey" none).2.2 = [" x "] := by
  constructor
  · decide
  · rfl

/-- C3 amended: for every input passing validation, the classifier is invoked
exactly once, on the raw (untrimmed) text, and the persisted record stores
exactly the trimmed text, appended to the store. -/
theorem create_classifies_raw_stores_trimmed (classify : String → String)
    (db : List Feedback) (new_id : Nat) (now : Int) (text source : String)
    (meta : Option String) (hsrc : source ∈ VALID_SOURCES) (htxt : pyStrip text ≠ "") :
    (create_feedback classify db new_id now text source meta).2.2 = [text] ∧
    ∃ f : Feedback,
      (create_feedback classify db new_id now text source meta).2.1 = .ok f ∧
      f.text = pyStrip text ∧
      (create_feedback classify db new_id now text source meta).1 = db ++ [f] := by
  unfold create_feedback
  rw [if_neg (by simpa using hsrc), if_neg htxt]
  exact ⟨rfl, _, rfl, rfl, rfl⟩

/-- Witness for the amended C3 at a concrete input. -/
theorem create_classifies_raw_stores_trimmed_witness :
    (create_feedback (fun _ => "positive") [] 1 0 " nice app " "survey" none).2.2 =
      [" nice app "] ∧
    ∃ f : Feedback,
      (create_feedback (fun _ => "positive") [] 1 0 " nice app " "survey" none).2.1 =
        .ok f ∧
      f.text = pyStrip " nice app " ∧
      (create_feedback (fun _ => "positive") [] 1 0 " nice app " "survey" none).1 =
        [] ++ [f] :=
  create_classifies_raw_stores_trimmed (fun _ => "positive") [] 1 0 " nice app "
    "survey" none (by decide) (by decide)

/-- C8: creation with an invalid source, or with text empty after trimming,
fails with `invalidArgument`, invokes the classifier on nothing (no external
call), and leaves the store unchanged. -/
theorem create_validation_early_exit (classify : String → String)
    (db : List Feedback) (new_id : Nat) (now : Int) (text source : String)
    (meta : Option String) (h : source ∉ VALID_SOURCES ∨ pyStrip text = "") :
    ∃ msg, create_feedback classify db new_id now text source meta =
      (db, .error (.invalidArgument msg), []) := by
  unfold create_feedback
  by_cases hsrc : source ∈ VALID_SOURCES
  · rcases h with h | h
    · exact absurd hsrc h
    · rw [if_neg (by simpa using hsrc), if_pos h]
      exact ⟨_, rfl⟩
  · rw [if_pos hsrc]
    exact ⟨_, rfl⟩

/-- Witness for C8 at a concrete invalid source. -/
theorem create_validation_early_exit_witness :
    ∃ msg, create_feedback (fun _ => "positive") [] 1 0 "fine text" "email" none =
      ([], .error (.invalidArgument msg), []) :=
  create_validation_early_exit (fun _ => "positive") [] 1 0 "fine text" "email" none
    (Or.inl (by decide))

/-! ## Statistics (`FeedbackService.get_stats`) -/

/-- Python dict counting update `d[k] = d.get(k, 0) + 1` on an
insertion-ordered association list with unique keys; also the semantics of
one SQL `GROUP BY`/`COUNT` row accumulation. -/
def bump {α : Type} [DecidableEq α] : List (α × Nat) → α → List (α × Nat)
  | [], key => [(key, 1)]
  | (k, v) :: rest, key =>
    if k = key then (k, v + 1) :: rest else (k, v) :: bump rest key

/-- Dictionary lookup with default 0 (Python `d.get(k, 0)`). -/
def lookupD {α : Type} [DecidableEq α] : List (α × Nat) → α → Nat
  | [], _ => 0
  | (k, v) :: rest, key => if k = key then v else lookupD rest key

/-- Sum of the dictionary's values. -/
def sumVals {α : Type} (d : List (α × Nat)) : Nat := (d.map Prod.snd).sum

/-- SQL `GROUP BY key, COUNT(*)`: occurrence counts of the keys, in
first-seen order. -/
def groupCounts {α : Type} [DecidableEq α] (keys : List α) : List (α × Nat) :=
  keys.foldl bump []

/-- Python `sent or 'unknown'`: `None` and the empty string are falsy. -/
def pyOrUnknown : Option String → String
  | none => "unknown"
  | some s => if s = "" then "unknown" else s

/-- Python dict-comprehension insertion: set the key's value, overwriting an
existing entry in place, else appending. -/
def assocSet : List (String × Nat) → String → Nat → List (String × Nat)
  | [], k, v => [(k, v)]
  | (k', v') :: rest, k, v =>
    if k' = k then (k, v) :: rest else (k', v') :: assocSet rest k v

/-- The comprehension `{sent or 'unknown': count for sent, count in rows}`. -/
def relabelSentiments (g : List (Option String × Nat)) : List (String × Nat) :=
  g.foldl (fun d kv => assocSet d (pyOrUnknown kv.1) kv.2) []

/-- Seven days in the timestamp unit (seconds). -/
def SEVEN_DAYS : Int := 7 * 86400

/-- Return value of `FeedbackService.get_stats`. -/
structure StatsResponse where
  total_feedback : Nat
  sentiment_counts : List (String × Nat)
  source_counts : List (String × Nat)
  recent_count : Nat
deriving DecidableEq

/-- Embedding of `FeedbackService.get_stats`: total count, sentiment histogram with nulls
relabelled `unknown`, source histogram, and the count of records from the
last seven days. -/
def get_stats (db : List Feedback) (now : Int) : StatsResponse :=
  ⟨db.length,
   relabelSentiments (groupCounts (db.map (fun f => f.sentiment))),
   groupCounts (db.map (fun f => f.source)),
   (db.filter (fun f => decide (now - SEVEN_DAYS ≤ f.created_at))).length⟩

theorem sumVals_cons {α : Type} (k : α) (v : Nat) (d : List (α × Nat)) :
    sumVals ((k, v) :: d) = v + sumVals d := by
  simp [sumVals]

theorem sumVals_bump {α : Type} [DecidableEq α] (d : List (α × Nat)) (k : α) :
    sumVals (bump d k) = sumVals d + 1 := by
  induction d with
  | nil => rfl
  | cons kv rest ih =>
    obtain ⟨k', v⟩ := kv
    unfold bump
    by_cases h : k' = k
    · rw [if_pos h, sumVals_cons, sumVals_cons]
      omega
    · rw [if_neg h, sumVals_cons, sumVals_cons, ih]
      omega

theorem sumVals_foldl_bump {α : Type} [DecidableEq α] (keys : List α)
    (d : List (α × Nat)) :
    sumVals (keys.foldl bump d) = sumVals d + keys.length := by
  induction keys generalizing d with
  | nil => simp
  | cons k rest ih =>
    rw [List.foldl_cons, ih, sumVals_bump]
    simp
    omega

theorem mem_fst_bump {α : Type} [DecidableEq α] (d : List (α × Nat)) (k x : α) :
    x ∈ (bump d k).map Prod.fst ↔ x ∈ d.map Prod.fst ∨ x = k := by
  induction d with
  | nil => simp [bump]
  | cons kv rest ih =>
    obtain ⟨k', v⟩ := kv
    unfold bump
    by_cases h : k' = k
    · subst h
      simp
      tauto
    · rw [if_neg h]
      simp [ih]
      tauto

theorem nodup_fst_bump {α : Type} [DecidableEq α] (d : List (α × Nat)) (k : α)
    (h : (d.map Prod.fst).Nodup) : ((bump d k).map Prod.fst).Nodup := by
  induction d with
  | nil => simp [bump]
  | cons kv rest ih =>
    obtain ⟨k', v⟩ := kv
    unfold bump
    by_cases hk : k' = k
    · rw [if_pos hk]
      simpa using h
    · rw [if_neg hk]
      simp only [List.map_cons, List.nodup_cons] at h ⊢
      refine ⟨?_, ih h.2⟩
      rw [mem_fst_bump]
      push_neg
      exact ⟨h.1, hk⟩

theorem mem_fst_foldl_bump {α : Type} [DecidableEq α] (keys : List α)
    (d : List (α × Nat)) (x : α) :
    x ∈ (keys.foldl bump d).map Prod.fst ↔ x ∈ d.map Prod.fst ∨ x ∈ keys := by
  induction keys generalizing d with
  | nil => simp
  | cons k rest ih =>
    rw [List.foldl_cons, ih, mem_fst_bump]
    simp
    tauto

theorem nodup_fst_foldl_bump {α : Type} [DecidableEq α] (keys : List α)
    (d : List (α × Nat)) (h : (d.map Prod.fst).Nodup) :
    ((keys.foldl bump d).map Prod.fst).Nodup := by
  induction keys generalizing d with
  | nil => simpa
  | cons k rest ih => exact ih _ (nodup_fst_bump _ _ h)

theorem lookupD_bump_self {α : Type} [DecidableEq α] (d : List (α × Nat)) (k : α) :
    lookupD (bump d k) k = lookupD d k + 1 := by
  induction d with
  | nil => simp [bump, lookupD]
  | cons kv rest ih =>
    obtain ⟨k', v⟩ := kv
    unfold bump
    by_cases h : k' = k
    · rw [if_pos h]
      unfold lookupD
      rw [if_pos h, if_pos h]
    · rw [if_neg h]
      unfold lookupD
      rw [if_neg h, if_neg h, ih]

theorem lookupD_bump_other {α : Type} [DecidableEq α] (d : List (α × Nat))
    (k k' : α) (h : k ≠ k') : lookupD (bump d k) k' = lookupD d k' := by
  induction d with
  | nil => simp [bump, lookupD, h]
  | cons kv rest ih =>
    obtain ⟨k0, v⟩ := kv
    unfold bump
    by_cases h0 : k0 = k
    · rw [if_pos h0]
      unfold lookupD
      have hne : k0 ≠ k' := h0 ▸ h
      rw [if_neg hne, if_neg hne]
    · rw [if_neg h0]
      unfold lookupD
      by_cases h1 : k0 = k'
      · rw [if_pos h1, if_pos h1]
      · rw [if_neg h1, if_neg h1, ih]

theorem lookupD_foldl_bump {α : Type} [DecidableEq α] (keys : List α)
    (d : List (α × Nat)) (k : α) :
    lookupD (keys.foldl bump d) k = lookupD d k + keys.count k := by
  induction keys generalizing d with
  | nil => simp
  | cons k0 rest ih =>
    rw [List.foldl_cons, ih]
    by_cases h : k0 = k
    · subst h
      rw [lookupD_bump_self]
      simp [List.count_cons]
      omega
    · rw [lookupD_bump_other _ _ _ h]
      simp [List.count_cons, h]

theorem lookupD_eq_zero {α : Type} [DecidableEq α] (d : List (α × Nat)) (k : α)
    (h : k ∉ d.map Prod.fst) : lookupD d k = 0 := by
  induction d with
  | nil => rfl
  | cons kv rest ih =>
    obtain ⟨k', v⟩ := kv
    simp only [List.map_cons, List.mem_cons] at h
    push_neg at h
    unfold lookupD
    rw [if_neg (Ne.symm h.1), ih h.2]

theorem assocSet_fresh (d : List (String × Nat)) (k : String) (v : Nat)
    (h : k ∉ d.map Prod.fst) : assocSet d k v = d ++ [(k, v)] := by
  induction d with
  | nil => rfl
  | cons kv rest ih =>
    obtain ⟨k', v'⟩ := kv
    simp only [List.map_cons, List.mem_cons] at h
    push_neg at h
    unfold assocSet
    rw [if_neg (Ne.symm h.1), ih h.2]
    simp

theorem relabel_foldl_fresh (g : List (Option String × Nat))
    (d : List (String × Nat))
    (hnd : (g.map (fun kv => pyOrUnknown kv.1)).Nodup)
    (hfresh : ∀ kv ∈ g, pyOrUnknown kv.1 ∉ d.map Prod.fst) :
    g.foldl (fun d kv => assocSet d (pyOrUnknown kv.1) kv.2) d =
      d ++ g.map (fun kv => (pyOrUnknown kv.1, kv.2)) := by
  induction g generalizing d with
  | nil => simp
  | cons kv rest ih =>
    simp only [List.map_cons, List.nodup_cons] at hnd
    rw [List.foldl_cons]
    rw [assocSet_fresh _ _ _ (hfresh kv (by simp))]
    rw [ih _ hnd.2]
    · simp
    · intro kv' hkv'
      simp only [List.map_append, List.map_cons, List.map_nil, List.mem_append,
        List.mem_singleton]
      push_neg
      refine ⟨hfresh kv' (by simp [hkv']), ?_⟩
      intro hc
      exact hnd.1 (hc ▸ List.mem_map_of_mem (fun kv => pyOrUnknown kv.1) hkv')

theorem relabelSentiments_eq_map (g : List (Option String × Nat))
    (hnd : (g.map (fun kv => pyOrUnknown kv.1)).Nodup) :
    relabelSentiments g = g.map (fun kv => (pyOrUnknown kv.1, kv.2)) := by
  unfold relabelSentiments
  rw [relabel_foldl_fresh g [] hnd (by simp)]
  simp

theorem pyOrUnknown_valid {s : String} (hs : s ∈ VALID_SENTIMENTS) :
    pyOrUnknown (some s) = s ∧ s ≠ "unknown" := by
  simp only [VALID_SENTIMENTS, List.mem_cons, List.mem_singleton,
    List.not_mem_nil, or_false] at hs
  rcases hs with rfl | rfl | rfl <;> exact ⟨by decide, by decide⟩

theorem sumVals_map_relabel (g : List (Option String × Nat)) :
    sumVals (g.map (fun kv => (pyOrUnknown kv.1, kv.2))) = sumVals g := by
  unfold sumVals
  rw [List.map_map]
  rfl

theorem lookupD_map_relabel (g : List (Option String × Nat)) (k0 : Option String)
    (hinj : ∀ kv ∈ g, pyOrUnknown kv.1 = pyOrUnknown k0 → kv.1 = k0) :
    lookupD (g.map (fun kv => (pyOrUnknown kv.1, kv.2))) (pyOrUnknown k0) =
      lookupD g k0 := by
  induction g with
  | nil => rfl
  | cons kv rest ih =>
    obtain ⟨k, v⟩ := kv
    simp only [List.map_cons]
    unfold lookupD
    by_cases h : pyOrUnknown k = pyOrUnknown k0
    · have hk : k = k0 := hinj (k, v) (by simp) h
      rw [if_pos h, if_pos hk]
    · have hk : k ≠ k0 := fun hc => h (hc ▸ rfl)
      rw [if_neg h, if_neg hk]
      exact ih (fun kv' hkv' => hinj kv' (by simp [hkv']))

theorem count_none_map_sentiment (l : List Feedback) :
    @List.count (Option String) instBEqOfDecidableEq none
      (l.map (fun f => f.sentiment)) =
      (l.filter (fun f => f.sentiment.isNone)).length := by
  induction l with
  | nil => rfl
  | cons f t ih =>
    simp only [List.map_cons, List.count_cons, List.filter_cons]
    cases hs : f.sentiment with
    | none => simp [ih]
    | some s => simp [ih]

/-- C9 (amended): on every store whose records carry a null sentiment or a
valid label (the documented data-model invariant), the sentiment histogram of
`stats()` sums to `total_feedback`, and null-sentiment records are counted
under the label `unknown`. -/
theorem stats_sentiment_totals (db : List Feedback) (now : Int)
    (hclean : ∀ f ∈ db, f.sentiment = none ∨
      ∃ s ∈ VALID_SENTIMENTS, f.sentiment = some s) :
    sumVals (get_stats db now).sentiment_counts = (get_stats db now).total_feedback ∧
    lookupD (get_stats db now).sentiment_counts "unknown" =
      (db.filter (fun f => f.sentiment.isNone)).length := by
  have hmemkeys : ∀ k ∈ (groupCounts (db.map (fun f => f.sentiment))).map Prod.fst,
      k = none ∨ ∃ s ∈ VALID_SENTIMENTS, k = some s := by
    intro k hk
    unfold groupCounts at hk
    rw [mem_fst_foldl_bump] at hk
    rcases hk with hk | hk
    · simp at hk
    · obtain ⟨f, hf, hfk⟩ := List.mem_map.mp hk
      exact hfk ▸ hclean f hf
  have hlabinj : ∀ k1 ∈ (groupCounts (db.map (fun f => f.sentiment))).map Prod.fst,
      ∀ k2 ∈ (groupCounts (db.map (fun f => f.sentiment))).map Prod.fst,
      pyOrUnknown k1 = pyOrUnknown k2 → k1 = k2 := by
    intro k1 h1 k2 h2 heq
    rcases hmemkeys k1 h1 with rfl | ⟨s1, hs1, rfl⟩ <;>
      rcases hmemkeys k2 h2 with rfl | ⟨s2, hs2, rfl⟩
    · rfl
    · exfalso
      obtain ⟨he, hne⟩ := pyOrUnknown_valid hs2
      rw [he] at heq
      exact hne heq.symm
    · exfalso
      obtain ⟨he, hne⟩ := pyOrUnknown_valid hs1
      rw [he] at heq
      exact hne heq
    · obtain ⟨he1, _⟩ := pyOrUnknown_valid hs1
      obtain ⟨he2, _⟩ := pyOrUnknown_valid hs2
      rw [he1, he2] at heq
      rw [heq]
  have hndlab : ((groupCounts (db.map (fun f => f.sentiment))).map
      (fun kv => pyOrUnknown kv.1)).Nodup := by
    have h1 : ((groupCounts (db.map (fun f => f.sentiment))).map Prod.fst).Nodup := by
      unfold groupCounts
      exact nodup_fst_foldl_bump _ _ (by simp)
    have h2 := h1.map_on hlabinj
    rw [List.map_map] at h2
    exact h2
  have hrw := relabelSentiments_eq_map _ hndlab
  constructor
  · show sumVals (relabelSentiments (groupCounts (db.map (fun f => f.sentiment)))) =
      db.length
    rw [hrw, sumVals_map_relabel]
    unfold groupCounts
    rw [sumVals_foldl_bump]
    simp [sumVals]
  · show lookupD (relabelSentiments (groupCounts (db.map (fun f => f.sentiment))))
      "unknown" = (db.filter (fun f => f.sentiment.isNone)).length
    rw [hrw]
    have hinj0 : ∀ kv ∈ groupCounts (db.map (fun f => f.sentiment)),
        pyOrUnknown kv.1 = pyOrUnknown none → kv.1 = none := by
      intro kv hkv heq
      rcases hmemkeys kv.1 (List.mem_map_of_mem Prod.fst hkv) with hn | ⟨s, hs, hks⟩
      · exact hn
      · obtain ⟨he, hne⟩ := pyOrUnknown_valid hs
        rw [hks] at heq
        rw [he] at heq
        exact absurd heq hne
    have h0 := lookupD_map_relabel (groupCounts (db.map (fun f => f.sentiment)))
      none hinj0
    have hlab : pyOrUnknown none = "unknown" := rfl
    rw [hlab] at h0
    rw [h0]
    unfold groupCounts
    rw [lookupD_foldl_bump]
    have hz : lookupD ([] : List (Option String × Nat)) none = 0 := rfl
    rw [hz, Nat.zero_add]
    exact count_none_map_sentiment db

/-- A small concrete store with a null-sentiment record, used as a witness
input. -/
def sampleStore : List Feedback :=
  [⟨1, "a", "survey", some "positive", 0, none⟩,
   ⟨2, "b", "survey", none, 0, none⟩,
   ⟨3, "c", "app_store", some "positive", 0, none⟩]

/-- C9 counterexample to the unrestricted claim: the comprehension
`{sent or 'unknown': count}` collapses a record whose stored sentiment is the
literal string `"unknown"` with a null-sentiment record onto the same key
(the later group row overwrites the earlier), so on that store the histogram
sums to 1 while `total_feedback` is 2. -/
theorem stats_unknown_collision_counterexample :
    sumVals (get_stats
        [⟨1, "a", "survey", some "unknown", 0, none⟩,
         ⟨2, "b", "survey", none, 0, none⟩] 0).sentiment_counts ≠
      (get_stats
        [⟨1, "a", "survey", some "unknown", 0, none⟩,
         ⟨2, "b", "survey", none, 0, none⟩] 0).total_feedback := by
  decide

/-- Witness for C9 at a concrete store with a null-sentiment record. -/
theorem stats_sentiment_totals_witness :
    sumVals (get_stats sampleStore 0).sentiment_counts =
      (get_stats sampleStore 0).total_feedback ∧
    lookupD (get_stats sampleStore 0).sentiment_counts "unknown" =
      (sampleStore.filter (fun f => f.sentiment.isNone)).length :=
  stats_sentiment_totals sampleStore 0 (by decide)

/-! ## Summarization orchestration (`routes.summarize_feedback`) -/

/-- Python truthiness of the optional id list (`if request.feedback_ids:`):
`None` and the empty list are both falsy. -/
def idsTruthy : Option (List Nat) → Bool
  | none => false
  | some l => !l.isEmpty

/-- Resolution of the target set in `routes.summarize_feedback`, in source
priority order: a truthy id list resolves via `get_feedback_by_ids` (404 when
none resolve); else a truthy filter object resolves via `get_feedback` with
`skip = 0` and the summary cap as limit; else the most recent feedback with
the same cap.  The common final check maps an empty resolved set to a 400.
`filters = none` stands for an absent or empty (falsy) filter object. -/
def resolve_feedback (db : List Feedback) (feedback_ids : Option (List Nat))
    (filters : Option QueryFilters) : Except ApiError (List Feedback) :=
  let pre : Except ApiError (List Feedback) :=
    if idsTruthy feedback_ids then
      let items := get_feedback_by_ids db (feedback_ids.getD [])
      if items.isEmpty then
        .error (.notFound "No feedback found with the provided IDs")
      else .ok items
    else
      match filters with
      | some q => .ok (get_feedback db 0 MAX_FEEDBACK_FOR_SUMMARY q).1
      | none => .ok (get_feedback db 0 MAX_FEEDBACK_FOR_SUMMARY noFilters).1
  pre.bind (fun feedback_items =>
    if feedback_items.isEmpty then
      .error (.invalidArgument "No feedback found to summarize")
    else .ok feedback_items)

/-- Return value of the summarize endpoint. -/
structure SummarizeResponse where
  summary : String
  feedback_count : Nat
  sentiment_breakdown : List (String × Nat)
deriving DecidableEq

/-- The breakdown loop of `routes.summarize_feedback`: for every resolved
item, `sentiment_breakdown[sent or 'unknown'] += 1` over a Python dict. -/
def sentimentBreakdown (items : List Feedback) : List (String × Nat) :=
  items.foldl (fun d item => bump d (pyOrUnknown item.sentiment)) []

/-- Embedding of `routes.summarize_feedback` after resolution: extract the texts in order,
call the summarizer, and assemble the response from the resolved set.  An
`AIServiceError` surfaces as the service-unavailable outcome. -/
def summarize_route (outcome : ModelOutcome) (db : List Feedback)
    (feedback_ids : Option (List Nat)) (filters : Option QueryFilters) :
    Except ApiError SummarizeResponse :=
  match resolve_feedback db feedback_ids filters with
  | .error e => .error e
  | .ok feedback_items =>
    let feedback_texts := feedback_items.map (fun f => f.text)
    match (summarize_feedback outcome feedback_texts).1 with
    | .error err => .error (.aiUnavailable err.message)
    | .ok summary =>
      .ok ⟨summary, feedback_items.length, sentimentBreakdown feedback_items⟩

/-- C5: a non-empty id list resolving to nothing fails with 404 NotFound;
filter-mode and recent-mode resolution of an empty set fails with 400
InvalidArgument; and the id mode takes priority: with a truthy id list the
filters are ignored by resolution, while a filter-mode success returns
exactly the capped query result. -/
theorem summarize_resolution_modes (db : List Feedback) (l : List Nat)
    (filters : Option QueryFilters) (q : QueryFilters) :
    (l ≠ [] → get_feedback_by_ids db l = [] →
      resolve_feedback db (some l) filters =
        .error (.notFound "No feedback found with the provided IDs")) ∧
    (l ≠ [] →
      resolve_feedback db (some l) filters = resolve_feedback db (some l) none) ∧
    ((get_feedback db 0 MAX_FEEDBACK_FOR_SUMMARY q).1 = [] →
      resolve_feedback db none (some q) =
        .error (.invalidArgument "No feedback found to summarize")) ∧
    ((get_feedback db 0 MAX_FEEDBACK_FOR_SUMMARY noFilters).1 = [] →
      resolve_feedback db none none =
        .error (.invalidArgument "No feedback found to summarize")) ∧
    (∀ items, resolve_feedback db none (some q) = .ok items →
      items = (get_feedback db 0 MAX_FEEDBACK_FOR_SUMMARY q).1) := by
  refine ⟨?_, ?_, ?_, ?_, ?_⟩
  · intro hl hres
    have ht : idsTruthy (some l) = true := by
      simp [idsTruthy, hl]
    simp [resolve_feedback, ht, hres, Except.bind]
  · intro hl
    have ht : idsTruthy (some l) = true := by
      simp [idsTruthy, hl]
    simp [resolve_feedback, ht]
  · intro hres
    simp [resolve_feedback, idsTruthy, hres, Except.bind]
  · intro hres
    simp [resolve_feedback, idsTruthy, hres, Except.bind]
  · intro items hres
    by_cases he : (get_feedback db 0 MAX_FEEDBACK_FOR_SUMMARY q).1 = []
    · simp [resolve_feedback, idsTruthy, he, Except.bind] at hres
    · simp [resolve_feedback, idsTruthy, List.isEmpty_iff, he, Except.bind] at hres
      exact hres.symm

/-- Witness for C5 at concrete inputs: a store holding one record, an id list
naming a missing id, and an unsatisfiable filter. -/
theorem summarize_resolution_modes_witness :
    resolve_feedback sampleStore (some [99]) none =
      .error (.notFound "No feedback found with the provided IDs") ∧
    resolve_feedback [] none (some noFilters) =
      .error (.invalidArgument "No feedback found to summarize") ∧
    resolve_feedback [] none none =
      .error (.invalidArgument "No feedback found to summarize") :=
  ⟨(summarize_resolution_modes sampleStore [99] none noFilters).1
      (by decide) (by decide),
   (summarize_resolution_modes ([] : List Feedback) [99] none noFilters).2.2.1
      (by decide),
   (summarize_resolution_modes ([] : List Feedback) [99] none noFilters).2.2.2.1
      (by decide)⟩

/-- C10: an explicitly supplied empty id list is treated identically to
supplying no ids at all — resolution and the whole endpoint agree with the
no-ids call for every filter object, and an empty id list never produces the
404 NotFound outcome. -/
theorem summarize_empty_ids_like_none (outcome : ModelOutcome) (db : List Feedback)
    (filters : Option QueryFilters) :
    summarize_route outcome db (some []) filters =
      summarize_route outcome db none filters ∧
    resolve_feedback db (some []) filters = resolve_feedback db none filters ∧
    (∀ msg, resolve_feedback db (some []) filters ≠ .error (.notFound msg)) := by
  have hres : resolve_feedback db (some []) filters =
      resolve_feedback db none filters := by
    simp [resolve_feedback, idsTruthy]
  refine ⟨?_, hres, ?_⟩
  · simp [summarize_route, hres]
  · intro msg hc
    rw [hres] at hc
    unfold resolve_feedback at hc
    simp only [idsTruthy] at hc
    rcases filters with _ | q <;>
      simp only [Bool.false_eq_true, if_false, Except.bind] at hc <;>
      split at hc <;> simp_all

/-- Witness for C10 at concrete inputs (its universally quantified negative
clause applied at a concrete message). -/
theorem summarize_empty_ids_like_none_witness :
    summarize_route (.ok "sum") sampleStore (some []) none =
      summarize_route (.ok "sum") sampleStore none none ∧
    resolve_feedback sampleStore (some []) none ≠
      .error (.notFound "No feedback found with the provided IDs") :=
  ⟨(summarize_empty_ids_like_none (.ok "sum") sampleStore none).1,
   (summarize_empty_ids_like_none (.ok "sum") sampleStore none).2.2
      "No feedback found with the provided IDs"⟩

theorem sentimentBreakdown_eq_groupCounts (items : List Feedback) :
    sentimentBreakdown items =
      groupCounts (items.map (fun f => pyOrUnknown f.sentiment)) := by
  unfold sentimentBreakdown groupCounts
  rw [List.foldl_map]

theorem count_label (items : List Feedback) (lab : String) :
    @List.count String instBEqOfDecidableEq lab
      (items.map (fun f => pyOrUnknown f.sentiment)) =
      (items.filter (fun f => pyOrUnknown f.sentiment == lab)).length := by
  induction items with
  | nil => rfl
  | cons f t ih =>
    simp only [List.map_cons, List.count_cons, List.filter_cons]
    by_cases h : pyOrUnknown f.sentiment = lab
    · simp [h, ih]
    · simp [h, ih]

/-- If resolution succeeds the resolved set is non-empty. -/
theorem resolve_feedback_ok_ne_nil (db : List Feedback)
    (feedback_ids : Option (List Nat)) (filters : Option QueryFilters)
    (items : List Feedback)
    (h : resolve_feedback db feedback_ids filters = .ok items) : items ≠ [] := by
  unfold resolve_feedback at h
  generalize hpre : (if idsTruthy feedback_ids then _ else _ :
    Except ApiError (List Feedback)) = pre at h
  cases pre with
  | error e => simp [Except.bind] at h
  | ok pitems =>
    simp only [Except.bind] at h
    split at h
    · simp at h
    · next hne =>
      obtain rfl : pitems = items := by simpa using h
      simpa [List.isEmpty_iff] using hne

/-- C7: the summarizer sends at most the first `MAX_FEEDBACK_FOR_SUMMARY`
texts, in input order (the sent batch is the `take` of the input), while the
endpoint's sentiment breakdown is computed over the whole resolved set: every
label's entry counts all resolved records carrying it (null under
`unknown`), the breakdown sums to the full resolved count even when more
texts were resolved than sent, and the response reports the resolved set's
size and breakdown. -/
theorem summarize_cap_and_breakdown (outcome : ModelOutcome) (db : List Feedback)
    (feedback_ids : Option (List Nat)) (filters : Option QueryFilters)
    (texts : List String) (items : List Feedback) (lab : String) :
    (texts ≠ [] →
      (summarize_feedback outcome texts).2 = texts.take MAX_FEEDBACK_FOR_SUMMARY) ∧
    lookupD (sentimentBreakdown items) lab =
      (items.filter (fun f => pyOrUnknown f.sentiment == lab)).length ∧
    sumVals (sentimentBreakdown items) = items.length ∧
    (resolve_feedback db feedback_ids filters = .ok items →
      (summarize_feedback outcome (items.map (fun f => f.text))).2 =
        (items.map (fun f => f.text)).take MAX_FEEDBACK_FOR_SUMMARY ∧
      ∀ r, summarize_route outcome db feedback_ids filters = .ok r →
        r.sentiment_breakdown = sentimentBreakdown items ∧
        r.feedback_count = items.length) := by
  have hsent : ∀ ts : List String, ts ≠ [] →
      (summarize_feedback outcome ts).2 = ts.take MAX_FEEDBACK_FOR_SUMMARY := by
    intro ts hts
    unfold summarize_feedback
    rw [if_neg (by simpa [List.isEmpty_iff] using hts)]
    cases outcome <;> rfl
  refine ⟨hsent texts, ?_, ?_, ?_⟩
  · rw [sentimentBreakdown_eq_groupCounts]
    unfold groupCounts
    rw [lookupD_foldl_bump]
    have hz : lookupD ([] : List (String × Nat)) lab = 0 := rfl
    rw [hz, Nat.zero_add, count_label]
  · rw [sentimentBreakdown_eq_groupCounts]
    unfold groupCounts
    rw [sumVals_foldl_bump]
    simp [sumVals]
  · intro hres
    have hne : items ≠ [] := resolve_feedback_ok_ne_nil db _ _ _ hres
    have hmapne : items.map (fun f => f.text) ≠ [] := by
      simpa using hne
    refine ⟨hsent _ hmapne, ?_⟩
    intro r hr
    unfold summarize_route at hr
    rw [hres] at hr
    simp only at hr
    cases hout : (summarize_feedback outcome (items.map (fun f => f.text))).1 with
    | error err =>
      rw [hout] at hr
      simp at hr
    | ok summary =>
      rw [hout] at hr
      simp only [Except.ok.injEq] at hr
      rw [← hr]
      exact ⟨rfl, rfl⟩

/-- Witness for C7 at concrete inputs: 51 one-character texts are capped to
the first 50, and a concrete resolution feeds the whole resolved set into the
breakdown. -/
theorem summarize_cap_and_breakdown_witness :
    (summarize_feedback (.ok "s") (List.replicate 51 "t")).2 =
      (List.replicate 51 "t").take MAX_FEEDBACK_FOR_SUMMARY ∧
    (summarize_feedback (.ok "s") (sampleStore.map (fun f => f.text))).2 =
      (sampleStore.map (fun f => f.text)).take MAX_FEEDBACK_FOR_SUMMARY :=
  ⟨((summarize_cap_and_breakdown (.ok "s") sampleStore none none
      (List.replicate 51 "t") sampleStore "unknown").1 (by decide)),
   ((summarize_cap_and_breakdown (.ok "s") sampleStore none none
      (List.replicate 51 "t") sampleStore "unknown").2.2.2
      (by rfl)).1⟩

end FeedbackApp
